import Mathlib

/-!
A shallow embedding of the go-tasty client (package gotasty) and proofs about
its session-refresh protocol, persisted-session codec, filter serialization,
enum codecs and order-status decoder.

Sources embedded here:
  * `tasty.go`   — `NewSession`, `NewSessionFromBytes`, `(*Session).Marshal`,
    `(*Session).restyClient`, `(*Session).DeleteOrder`, the filter-parameter
    blocks of `Positions` / `Transactions` / `Orders`, and `parseOrderStatus`
    with its nested decoders.
  * `types.go` / the enum file — `Session`, the filter-option records, the
    enumerated value types with their `...FromString` decoders and `String()`
    stringifiers, and the order-status record types.

External collaborators (Go standard library `time`, the resty HTTP transport,
the gjson path-query engine, the zstd+JSON byte codec) are modelled by the
interfaces the core consumes: a wall-clock timestamp with second/nanosecond
parts, an HTTP response record carrying status/body/receive-time, a JSON node
with typed accessors and defined zero-values for missing paths, and the
persisted-record struct that the codec serializes faithfully.
-/

/-! ## Go wall-clock time (`time.Time`)

A normalized Go `time.Time` is a pair of seconds since the Unix epoch and a
nanosecond offset in `[0, 1e9)`.  `Before`/`After` compare instants strictly,
`Unix` drops the nanosecond part, and `time.Unix s 0` rebuilds a whole-second
instant.  The zero `time.Time` is January 1 of year 1 UTC. -/

structure GoTime where
  sec : Int
  nsec : Nat
deriving DecidableEq, Repr

/-- Go `t.Before(u)`: `t` is strictly earlier than `u`. -/
def GoTime.before (t u : GoTime) : Prop :=
  t.sec < u.sec ∨ (t.sec = u.sec ∧ t.nsec < u.nsec)

instance (t u : GoTime) : Decidable (t.before u) :=
  inferInstanceAs (Decidable (_ ∨ _))

/-- Go `t.After(u)`: `t` is strictly later than `u`. -/
def GoTime.after (t u : GoTime) : Prop := u.before t

instance (t u : GoTime) : Decidable (t.after u) :=
  inferInstanceAs (Decidable (GoTime.before u t))

/-- Go `t.Add(d)` for a whole-second duration `d` (all durations used by the
client — 5 minutes, 24 hours, 28 days — are whole seconds). -/
def GoTime.addSec (t : GoTime) (d : Int) : GoTime := ⟨t.sec + d, t.nsec⟩

/-- Go `t.Unix()` for a normalized time: seconds since the epoch, nanoseconds
dropped. -/
def GoTime.unixSec (t : GoTime) : Int := t.sec

/-- Go `time.Unix(s, 0)`. -/
def GoTime.unix (s : Int) : GoTime := ⟨s, 0⟩

/-- The zero `time.Time` (January 1, year 1, UTC) as seconds before the epoch. -/
def GoTime.zeroVal : GoTime := ⟨-62135596800, 0⟩

/-- Go `time.Date(1900, 1, 1, 0, 0, 0, 0, time.UTC)`: the epoch sentinel the
filter serializers compare date fields against. -/
def epoch1900 : GoTime := ⟨-2208988800, 0⟩

/-! ## Enumerated value types (enum file)

Each Go enum is a closed int type; its `...FromString` decoder is a `switch`
on the string vocabulary falling through to the undefined sentinel, and its
`String()` stringifier (modelled as `.str`) maps the undefined sentinel to
the literal `"UNK"`. -/

inductive SortDirection where
  | Desc
  | Asc
deriving DecidableEq, Repr

/-- Go `SortDirection.String()`. -/
def SortDirection.str : SortDirection → String
  | .Desc => "desc"
  | .Asc => "asc"

inductive OrderTypeChoice where
  | UndefinedOrderType
  | Limit
  | Market
  | MarketableLimit
  | Stop
  | StopLimit
  | NotionalMarket
deriving DecidableEq, Repr

/-- Go `OrderTypeFromString`. -/
def OrderTypeFromString (input : String) : OrderTypeChoice :=
  if input = "Limit" then .Limit
  else if input = "Market" then .Market
  else if input = "Marketable Limit" then .MarketableLimit
  else if input = "Stop" then .Stop
  else if input = "StopLimit" then .StopLimit
  else if input = "Notional Market" then .NotionalMarket
  else .UndefinedOrderType

/-- Go `OrderTypeChoice.String()`. -/
def OrderTypeChoice.str : OrderTypeChoice → String
  | .Limit => "Limit"
  | .Market => "Market"
  | .MarketableLimit => "Marketable Limit"
  | .Stop => "Stop"
  | .StopLimit => "StopLimit"
  | .NotionalMarket => "Notional Market"
  | .UndefinedOrderType => "UNK"

/-- The defined vocabulary of `OrderTypeFromString`. -/
def orderTypeStrings : List String :=
  ["Limit", "Market", "Marketable Limit", "Stop", "StopLimit", "Notional Market"]

inductive Effect where
  | UndefinedEffect
  | Credit
  | Debit
deriving DecidableEq, Repr

/-- Go `EffectFromString`. -/
def EffectFromString (input : String) : Effect :=
  if input = "Credit" then .Credit
  else if input = "Debit" then .Debit
  else .UndefinedEffect

/-- Go `Effect.String()`. -/
def Effect.str : Effect → String
  | .Credit => "Credit"
  | .Debit => "Debit"
  | .UndefinedEffect => "UNK"

/-- The defined vocabulary of `EffectFromString`. -/
def effectStrings : List String := ["Credit", "Debit"]

inductive InstrumentTypeChoice where
  | UndefinedInstrument
  | Cryptocurrency
  | Equity
  | EquityOffering
  | EquityOption
  | Future
  | FutureOption
deriving DecidableEq, Repr

/-- Go `InstrumentTypeFromString`. -/
def InstrumentTypeFromString (input : String) : InstrumentTypeChoice :=
  if input = "Cryptocurrency" then .Cryptocurrency
  else if input = "Equity" then .Equity
  else if input = "Equity Offering" then .EquityOffering
  else if input = "Equity Option" then .EquityOption
  else if input = "Future" then .Future
  else if input = "Future Option" then .FutureOption
  else .UndefinedInstrument

/-- Go `InstrumentTypeChoice.String()`. -/
def InstrumentTypeChoice.str : InstrumentTypeChoice → String
  | .Cryptocurrency => "Cryptocurrency"
  | .Equity => "Equity"
  | .EquityOffering => "Equity Offering"
  | .EquityOption => "Equity Option"
  | .Future => "Future"
  | .FutureOption => "Future Option"
  | .UndefinedInstrument => "UNK"

/-- The defined vocabulary of `InstrumentTypeFromString`. -/
def instrumentTypeStrings : List String :=
  ["Cryptocurrency", "Equity", "Equity Offering", "Equity Option", "Future", "Future Option"]

inductive ActionType where
  | UndefinedAction
  | SellToOpen
  | SellToClose
  | BuyToOpen
  | BuyToClose
  | Sell
  | Buy
deriving DecidableEq, Repr

/-- Go `ActionTypeFromString`. -/
def ActionTypeFromString (input : String) : ActionType :=
  if input = "Sell to Open" then .SellToOpen
  else if input = "Sell to Close" then .SellToClose
  else if input = "Buy to Open" then .BuyToOpen
  else if input = "Buy to Close" then .BuyToClose
  else if input = "Sell" then .Sell
  else if input = "Buy" then .Buy
  else .UndefinedAction

/-- Go `ActionType.String()`. -/
def ActionType.str : ActionType → String
  | .SellToOpen => "Sell to Open"
  | .SellToClose => "Sell to Close"
  | .BuyToOpen => "Buy to Open"
  | .BuyToClose => "Buy to Close"
  | .Sell => "Sell"
  | .Buy => "Buy"
  | .UndefinedAction => "UNK"

/-- The defined vocabulary of `ActionTypeFromString`. -/
def actionTypeStrings : List String :=
  ["Sell to Open", "Sell to Close", "Buy to Open", "Buy to Close", "Sell", "Buy"]

inductive ActionCondition where
  | UndefinedActionCondition
  | Route
  | Cancel
deriving DecidableEq, Repr

/-- Go `ActionConditionFromString`. -/
def ActionConditionFromString (input : String) : ActionCondition :=
  if input = "route" then .Route
  else if input = "cancel" then .Cancel
  else .UndefinedActionCondition

/-- Go `ActionCondition.String()`. -/
def ActionCondition.str : ActionCondition → String
  | .Route => "route"
  | .Cancel => "cancel"
  | .UndefinedActionCondition => "UNK"

/-- The defined vocabulary of `ActionConditionFromString`. -/
def actionConditionStrings : List String := ["route", "cancel"]

inductive IndicatorType where
  | UndefinedIndicatorType
  | Last
  | NAT
deriving DecidableEq, Repr

/-- Go `IndicatorFromString`. -/
def IndicatorFromString (input : String) : IndicatorType :=
  if input = "last" then .Last
  else if input = "nat" then .NAT
  else .UndefinedIndicatorType

/-- Go `IndicatorType.String()`. -/
def IndicatorType.str : IndicatorType → String
  | .Last => "last"
  | .NAT => "nat"
  | .UndefinedIndicatorType => "UNK"

/-- The defined vocabulary of `IndicatorFromString`. -/
def indicatorStrings : List String := ["last", "nat"]

inductive ComparatorType where
  | UndefinedComparator
  | GTE
  | LTE
deriving DecidableEq, Repr

/-- Go `ComparatorFromString`. -/
def ComparatorFromString (input : String) : ComparatorType :=
  if input = "gte" then .GTE
  else if input = "lte" then .LTE
  else .UndefinedComparator

/-- Go `ComparatorType.String()`. -/
def ComparatorType.str : ComparatorType → String
  | .GTE => "gte"
  | .LTE => "lte"
  | .UndefinedComparator => "UNK"

/-- The defined vocabulary of `ComparatorFromString`. -/
def comparatorStrings : List String := ["gte", "lte"]

/-! ## The gjson query interface

The decoders consume gjson `Result` nodes through a fixed interface: key
lookup (`Get`), typed scalar accessors (`String()`, `Float()`, `Bool()`,
`Time()`) and `Array()`.  A missing key yields a node whose accessors return
the zero value of each type (empty string, 0, false, zero time, empty array).
A node is modelled as a record of its children and its typed readings; the
numeric accessor is carried as a rational. -/

inductive JNode where
  | mk (entries : List (String × JNode)) (items : List JNode)
       (strVal : String) (numVal : Rat) (boolVal : Bool) (timeVal : GoTime)

/-- The node a missing path yields: every accessor reads a zero value. -/
def JNode.missing : JNode := .mk [] [] "" 0 false GoTime.zeroVal

/-- gjson `node.Get(key)` for a single-key path. -/
def JNode.get : JNode → String → JNode
  | .mk entries _ _ _ _ _, key =>
    match entries.lookup key with
    | some v => v
    | none => JNode.missing

/-- gjson `Result.String()`. -/
def JNode.str : JNode → String
  | .mk _ _ s _ _ _ => s

/-- gjson `Result.Float()` (the numeric reading, carried as a rational). -/
def JNode.float : JNode → Rat
  | .mk _ _ _ q _ _ => q

/-- gjson `Result.Bool()`. -/
def JNode.bool : JNode → Bool
  | .mk _ _ _ _ b _ => b

/-- gjson `Result.Time()`. -/
def JNode.time : JNode → GoTime
  | .mk _ _ _ _ _ t => t

/-- gjson `Result.Array()`. -/
def JNode.array : JNode → List JNode
  | .mk _ items _ _ _ _ => items

/-- Build an object node (used to state concrete documents). -/
def jobj (entries : List (String × JNode)) : JNode :=
  .mk entries [] "" 0 false GoTime.zeroVal

/-- Build a string scalar node. -/
def jstr (s : String) : JNode := .mk [] [] s 0 false GoTime.zeroVal

/-- Build an array node. -/
def jarr (items : List JNode) : JNode := .mk [] items "" 0 false GoTime.zeroVal

example : (jobj [("a", jstr "x")]).get "a" = jstr "x" := rfl
example : ((jobj [("a", jstr "x")]).get "b").str = "" := rfl

/-! ## Session and the HTTP interface (`types.go`, `tasty.go`)

`Session.Token` and `Session.RememberToken` are `*atomic.Value` cells: `none`
models a cell that has never been `Store`d (Go's `Load()` then returns `nil`
and the `.(string)` assertion panics), `some s` models a cell holding `s`.
`RefreshLocker` is a `*sync.Mutex`: `none` models a nil pointer (locking it
panics), `some ()` an initialized mutex. -/

def apiURL : String := "https://api.tastyworks.com"

def sandboxApiURL : String := "https://api.cert.tastyworks.com"

def accountStreamerURL : String := "wss://streamer.tastyworks.com"

def sandboxAccountStreamerURL : String := "wss://streamer.cert.tastyworks.com"

structure Session where
  AuthenticatedOn : GoTime
  ExpiresOn : GoTime
  RememberMeExpiresOn : GoTime
  Name : String
  Nickname : String
  Email : String
  ExternalID : String
  Username : String
  ApiURL : String
  AccountStreamerURL : String
  Token : Option String
  RememberToken : Option String
  Debug : Bool
  RefreshLocker : Option Unit
deriving DecidableEq, Repr

structure SessionOpts where
  RememberMe : Bool
  Sandbox : Bool
  Debug : Bool
deriving DecidableEq, Repr

/-- The Go zero value of `SessionOpts` (used when no option is passed). -/
def SessionOpts.zero : SessionOpts := ⟨false, false, false⟩

/-- The part of a resty response the client consumes: status code, status
line, receive time, raw body (used in error messages) and the gjson view of
the body. -/
structure HttpResponse where
  StatusCode : Nat
  Status : String
  ReceivedAt : GoTime
  RawBody : String
  Doc : JNode

/-- The error values the client produces: the two sentinel errors of
`tasty.go`, a transport error propagated from resty, and the
`fmt.Errorf("%s: %s", resp.Status(), resp.Body())` wrapper for HTTP
status ≥ 400. -/
inductive GoError where
  | sessionExpired
  | rememberTokenExpired
  | transport (e : String)
  | httpStatus (status : String) (body : String)
deriving DecidableEq, Repr

/-- What `restyClient` hands back: a client with the Authorization header
set (carrying the token it attached), an error, or a runtime panic from a
nil mutex (`RefreshLocker.Lock()`) or an empty atomic cell
(`Load().(string)`). -/
inductive ClientResult where
  | ok (authToken : String)
  | err (e : GoError)
  | panicNilLock
  | panicNilValue
deriving DecidableEq, Repr

/-- Result of a `restyClient` call together with the session state it leaves
behind and whether a renewal exchange (POST `/sessions`) was issued. -/
structure RestyOutcome where
  result : ClientResult
  session : Session
  exchanged : Bool
deriving DecidableEq, Repr

/-- Outcome of an API operation: a value, an error, or a runtime panic. -/
inductive OpResult (α : Type) where
  | ok (val : α)
  | err (e : GoError)
  | panicked
deriving DecidableEq, Repr

/-- The final line of `restyClient` (`tasty.go` line 631): attach
`session.Token.Load().(string)` as the Authorization header. -/
def finishClient (session : Session) (exchanged : Bool) : RestyOutcome :=
  match session.Token with
  | none => ⟨.panicNilValue, session, exchanged⟩
  | some tk => ⟨.ok tk, session, exchanged⟩

/-- `(*Session).restyClient` (`tasty.go` lines 579–634).

`now` models the `time.Now()` read in the expiry check (line 591), `now2`
the second `time.Now()` read in the remember-token expiry check (line 606),
and `resp` the outcome of the renewal POST `/sessions` (lines 611-616):
`.error e` a transport error, `.ok r` an HTTP response. -/
def restyClient (session : Session) (now now2 : GoTime)
    (resp : Except String HttpResponse) : RestyOutcome :=
  if session.ExpiresOn.before (now.addSec (-300)) then
    match session.RefreshLocker with
    | none => ⟨.panicNilLock, session, false⟩
    | some _ =>
      match session.RememberToken with
      | none => ⟨.panicNilValue, session, false⟩
      | some rememberMe =>
        if rememberMe = "" then ⟨.err .sessionExpired, session, false⟩
        else if session.RememberMeExpiresOn.before now2 then
          ⟨.err .rememberTokenExpired, session, false⟩
        else
          match resp with
          | .error e => ⟨.err (.transport e), session, true⟩
          | .ok r =>
            if 400 ≤ r.StatusCode then
              ⟨.err (.httpStatus r.Status r.RawBody), session, true⟩
            else
              let tok := ((r.Doc.get "data").get "session-token").str
              finishClient { session with
                ExpiresOn := r.ReceivedAt.addSec 86400,
                Token := some tok,
                RememberMeExpiresOn := r.ReceivedAt.addSec 2419200,
                RememberToken := some tok } true
  else
    finishClient session false

/-- `NewSession` (`tasty.go` lines 379–443).  `resp` models the outcome of
the login POST `/sessions`. -/
def NewSession (login _password : String) (opts : List SessionOpts)
    (resp : Except String HttpResponse) : Except GoError Session :=
  let opt := opts.headD SessionOpts.zero
  let url := if opt.Sandbox then sandboxApiURL else apiURL
  let streamerURL := if opt.Sandbox then sandboxAccountStreamerURL else accountStreamerURL
  match resp with
  | .error e => .error (.transport e)
  | .ok r =>
    if 400 ≤ r.StatusCode then .error (.httpStatus r.Status r.RawBody)
    else
      let body := r.Doc
      .ok {
        AccountStreamerURL := streamerURL,
        ApiURL := url,
        AuthenticatedOn := r.ReceivedAt,
        ExpiresOn := r.ReceivedAt.addSec 86400,
        Username := login,
        Token := some ((body.get "data").get "session-token").str,
        RememberMeExpiresOn :=
          if opt.RememberMe then r.ReceivedAt.addSec 2419200 else GoTime.zeroVal,
        RememberToken :=
          if opt.RememberMe then some ((body.get "data").get "session-token").str else none,
        Name := ((body.get "data").get "user").get "name" |>.str,
        Nickname := ((body.get "data").get "user").get "nickname" |>.str,
        Email := ((body.get "data").get "user").get "email" |>.str,
        ExternalID := ((body.get "data").get "user").get "external-id" |>.str,
        Debug := opt.Debug,
        RefreshLocker := some () }

/-! ## The persisted-session codec (`tasty.go` lines 446–558)

`Marshal` builds a record of epoch-second timestamps, URL, tokens, identity
fields and debug flag and hands it to the zstd+JSON byte codec;
`NewSessionFromBytes` reads the same record back.  The byte codec itself is
an external collaborator and is modelled as the identity on the record. -/

structure SessionRecord where
  AuthenticatedOn : Int
  ApiURL : String
  SessionToken : String
  ExpiresOn : Int
  RememberToken : String
  RememberExpiresOn : Int
  Name : String
  Nickname : String
  Email : String
  ExternalID : String
  Username : String
  Debug : Bool
deriving DecidableEq, Repr

/-- `(*Session).Marshal` (`tasty.go` lines 507–558).  Returns `none` when a
token cell was never stored: `session.Token.Load().(string)` panics on the
nil interface. -/
def Session.Marshal (session : Session) : Option SessionRecord :=
  match session.Token, session.RememberToken with
  | some tok, some remTok =>
    some {
      AuthenticatedOn := session.AuthenticatedOn.unixSec,
      ApiURL := session.ApiURL,
      SessionToken := tok,
      ExpiresOn := session.ExpiresOn.unixSec,
      RememberToken := remTok,
      RememberExpiresOn := session.RememberMeExpiresOn.unixSec,
      Name := session.Name,
      Nickname := session.Nickname,
      Email := session.Email,
      ExternalID := session.ExternalID,
      Username := session.Username,
      Debug := session.Debug }
  | _, _ => none

/-- `NewSessionFromBytes` (`tasty.go` lines 446–504).  The struct literal at
lines 476–486 sets no `RefreshLocker`, leaving the mutex pointer nil. -/
def NewSessionFromBytes (data : SessionRecord) : Session :=
  { Name := data.Name,
    Nickname := data.Nickname,
    Email := data.Email,
    ExternalID := data.ExternalID,
    Username := data.Username,
    Debug := data.Debug,
    ApiURL := if data.ApiURL = sandboxApiURL then sandboxApiURL else apiURL,
    AccountStreamerURL :=
      if data.ApiURL = sandboxApiURL then sandboxAccountStreamerURL else accountStreamerURL,
    Token := some data.SessionToken,
    RememberToken := some data.RememberToken,
    AuthenticatedOn := GoTime.unix data.AuthenticatedOn,
    ExpiresOn := GoTime.unix data.ExpiresOn,
    RememberMeExpiresOn := GoTime.unix data.RememberExpiresOn,
    RefreshLocker := none }

/-- `Deserialize ∘ Serialize`: the persisted round trip of a session
(`NewSessionFromBytes` after `Marshal`); `none` when `Marshal` panics. -/
def sessionRoundTrip (c : Session) : Option Session :=
  match Session.Marshal c with
  | some rec => some (NewSessionFromBytes rec)
  | none => none

/-! ## Filter specifications and their query-parameter serialization

`Positions` (`tasty.go` lines 816–907), `Transactions` (lines 910–1065) and
`Orders` (lines 1068–1133) each begin with a block that serializes the first
element of the variadic `filterOpts` into query parameters — but only when
`len(filterOpts) > 1`.  Parameters are modelled as `(key, value)` pairs in
the order they are set.  `Sort` is a `*SortDirection`; the unconditional
`filter.Sort.String()` call dereferences it, so a nil `Sort` panics
(`panicNilSort`).  Date fields are emitted only when after the year-1900
sentinel; `formatRFC3339` abstracts the stdlib RFC-3339 rendering. -/

structure PositionFilterOpts where
  Symbol : String
  InstrumentType : InstrumentTypeChoice
  UnderlyingSymbol : List String
  UnderlyingProductCode : String
  PartitionKeys : List String
  NetPositions : Bool
  IncludeClosedPositions : Bool
  IncludeMarks : Bool
deriving DecidableEq, Repr

structure TransactionFilterOpts where
  StartDate : GoTime
  EndDate : GoTime
  Symbol : String
  InstrumentType : InstrumentTypeChoice
  UnderlyingSymbol : String
  FuturesSymbol : String
  Action : ActionType
  PartitionKey : String
  TransactionTypes : List String
  TransactionSubTypes : List String
  Status : List String
  Sort' : Option SortDirection
  PerPage : Int
  PageOffset : Int
deriving DecidableEq, Repr

structure OrdersFilterOpts where
  StartDate : GoTime
  EndDate : GoTime
  UnderlyingSymbol : String
  UnderlyingInstrumentType : InstrumentTypeChoice
  FuturesSymbol : String
  NetPositions : Bool
  IncludeClosedPositions : Bool
  IncludeMarks : Bool
  Status : List String
  Sort' : Option SortDirection
  PerPage : Int
  PageOffset : Int
deriving DecidableEq, Repr

/-- Abstract rendering of Go `t.Format(time.RFC3339)`. -/
def formatRFC3339 (t : GoTime) : String :=
  "rfc3339." ++ toString t.sec ++ "." ++ toString t.nsec

/-- Query parameters built by a serializer, or the panic from dereferencing
a nil `Sort` pointer. -/
inductive QueryBuild where
  | params (ps : List (String × String))
  | panicNilSort
deriving DecidableEq, Repr

/-- The filter block of `Positions` (`tasty.go` lines 824–864). -/
def positionsQueryParams (filterOpts : List PositionFilterOpts) : List (String × String) :=
  match filterOpts with
  | filter :: _ :: _ =>
    (if filter.UnderlyingSymbol.length > 0 then
      filter.UnderlyingSymbol.map (fun s => ("underlying-symbol[]", s)) else [])
    ++ (if filter.Symbol ≠ "" then [("symbol", filter.Symbol)] else [])
    ++ (if filter.InstrumentType ≠ .UndefinedInstrument then
          [("instrument-type", filter.InstrumentType.str)] else [])
    ++ (if filter.IncludeClosedPositions then [("include-closed-positions", "true")] else [])
    ++ (if filter.UnderlyingProductCode ≠ "" then
          [("underlying-product-code", filter.UnderlyingProductCode)] else [])
    ++ (if filter.PartitionKeys.length > 0 then
          filter.PartitionKeys.map (fun s => ("partition-keys[]", s)) else [])
    ++ (if filter.NetPositions then [("net-positions", "true")] else [])
    ++ (if filter.IncludeMarks then [("include-marks", "true")] else [])
  | _ => []

/-- The filter block of `Transactions` (`tasty.go` lines 918–977). -/
def transactionsQueryParams (filterOpts : List TransactionFilterOpts) : QueryBuild :=
  match filterOpts with
  | filter :: _ :: _ =>
    let ps :=
      (if filter.PerPage > 0 then [("per-page", toString filter.PerPage)] else [])
      ++ (if filter.PageOffset > 0 then [("page-offset", toString filter.PageOffset)] else [])
    match filter.Sort' with
    | none => .panicNilSort
    | some srt =>
      .params (ps ++ [("sort", srt.str)]
        ++ (if filter.TransactionTypes.length = 1 then
              [("type", filter.TransactionTypes.headD "")]
            else if filter.TransactionTypes.length > 1 then
              filter.TransactionTypes.map (fun t => ("types[]", t))
            else [])
        ++ (if filter.TransactionSubTypes.length > 0 then
              filter.TransactionSubTypes.map (fun t => ("sub-type[]", t)) else [])
        ++ (if filter.StartDate.after epoch1900 then
              [("start-date", formatRFC3339 filter.StartDate)] else [])
        ++ (if filter.EndDate.after epoch1900 then
              [("end-date", formatRFC3339 filter.EndDate)] else [])
        ++ (if filter.Symbol ≠ "" then [("symbol", filter.Symbol)] else [])
        ++ (if filter.InstrumentType ≠ .UndefinedInstrument then
              [("instrument-type", filter.InstrumentType.str)] else [])
        ++ (if filter.UnderlyingSymbol ≠ "" then
              [("underlying-symbol", filter.UnderlyingSymbol)] else [])
        ++ (if filter.Action ≠ .UndefinedAction then [("action", filter.Action.str)] else [])
        ++ (if filter.PartitionKey ≠ "" then [("partition-key", filter.PartitionKey)] else [])
        ++ (if filter.FuturesSymbol ≠ "" then
              [("futures-symbol", filter.FuturesSymbol)] else []))
  | _ => .params []

/-- The filter block of `Orders` (`tasty.go` lines 1076–1115). -/
def ordersQueryParams (filterOpts : List OrdersFilterOpts) : QueryBuild :=
  match filterOpts with
  | filter :: _ :: _ =>
    let ps :=
      (if filter.PerPage > 0 then [("per-page", toString filter.PerPage)] else [])
      ++ (if filter.PageOffset > 0 then [("page-offset", toString filter.PageOffset)] else [])
    match filter.Sort' with
    | none => .panicNilSort
    | some srt =>
      .params (ps ++ [("sort", srt.str)]
        ++ (if filter.Status.length > 0 then
              filter.Status.map (fun s => ("status[]", s)) else [])
        ++ (if filter.StartDate.after epoch1900 then
              [("start-date", formatRFC3339 filter.StartDate)] else [])
        ++ (if filter.EndDate.after epoch1900 then
              [("end-date", formatRFC3339 filter.EndDate)] else [])
        ++ (if filter.UnderlyingSymbol ≠ "" then
              [("underlying-symbol", filter.UnderlyingSymbol)] else [])
        ++ (if filter.UnderlyingInstrumentType ≠ .UndefinedInstrument then
              [("underlying-instrument-type", filter.UnderlyingInstrumentType.str)] else [])
        ++ (if filter.FuturesSymbol ≠ "" then
              [("futures-symbol", filter.FuturesSymbol)] else []))
  | _ => .params []

/-! ## The order-status decoder (`tasty.go` lines 1185–1310)

`parseOrderStatus` walks one order document: header fields, then `legs[]`
(each with `fills[]`), then `order-rule[]` (each with `conditions[]`, each
with `price-components[]`).  Each Go loop allocates one output per source
element at the same index; the loop bodies are named here as the per-element
decoders and the loops become `List.map`. -/

structure FillStatus where
  ExternalGroupFillID : String
  ExternalExecutionID : String
  FillID : String
  Quantity : String
  FillPrice : Rat
  FilledAt : GoTime
  DestinationVenue : String
deriving DecidableEq, Repr

structure LegStatus where
  InstrumentType : InstrumentTypeChoice
  Symbol : String
  Quantity : String
  RemainingQuantity : String
  Action : ActionType
  Fills : List FillStatus
deriving DecidableEq, Repr

structure ConditionPriceComponents where
  Symbol : String
  InstrumentType : InstrumentTypeChoice
  Quantity : String
  QuantityDirection : String
deriving DecidableEq, Repr

structure ConditionStatus where
  ID : String
  Action : ActionCondition
  TriggeredAt : GoTime
  TriggeredValue : Rat
  Symbol : String
  InstrumentType : InstrumentTypeChoice
  Indicator : IndicatorType
  Comparator : ComparatorType
  Threshold : Rat
  IsThresholdBasedOnNotional : Bool
  PriceComponents : List ConditionPriceComponents
deriving DecidableEq, Repr

structure RuleStatus where
  RouteAfter : GoTime
  RoutedAt : GoTime
  CancelAt : GoTime
  CancelledAt : GoTime
  Conditions : List ConditionStatus
deriving DecidableEq, Repr

structure OrderStatus where
  Size : String
  TimeInForce : String
  TerminalAt : GoTime
  Editable : Bool
  ContingentStatus : String
  Legs : List LegStatus
  GTCDate : GoTime
  UpdatedAt : String
  InFlightAt : GoTime
  ReplacesOrderID : String
  UnderlyingSymbol : String
  Edited : Bool
  Price : Rat
  CancelUsername : String
  AccountNumber : String
  ConfirmationStatus : String
  CancelUserID : String
  Cancellable : Bool
  ValueEffect : Effect
  StopTrigger : String
  CancelledAt : GoTime
  UnderlyingInstrumentType : InstrumentTypeChoice
  Value : Rat
  RejectReason : String
  Status : String
  LiveAt : GoTime
  PreflightID : String
  PriceEffect : Effect
  Username : String
  ReplacingOrderID : String
  ComplexOrderID : String
  OrderType : OrderTypeChoice
  ID : String
  OrderRule : List RuleStatus
  UserId : String
  ComplexOrderTag : String
  ReceivedAt : GoTime
deriving DecidableEq, Repr

/-- Body of the fills loop (`tasty.go` lines 1199–1209). -/
def parseFillStatus (fill : JNode) : FillStatus :=
  { ExternalGroupFillID := (fill.get "ext-group-fill-id").str,
    ExternalExecutionID := (fill.get "ext-exec-id").str,
    FillID := (fill.get "fill-id").str,
    Quantity := (fill.get "quantity").str,
    FillPrice := (fill.get "fill-price").float,
    FilledAt := (fill.get "filled-at").time,
    DestinationVenue := (fill.get "destination-venue").str }

/-- Body of the legs loop (`tasty.go` lines 1193–1219). -/
def parseLegStatus (leg : JNode) : LegStatus :=
  { InstrumentType := InstrumentTypeFromString (leg.get "instrument-type").str,
    Symbol := (leg.get "symbol").str,
    Quantity := (leg.get "quantity").str,
    RemainingQuantity := (leg.get "remaining-quantity").str,
    Action := ActionTypeFromString (leg.get "action").str,
    Fills := ((leg.get "fills").array).map parseFillStatus }

/-- Body of the price-components loop (`tasty.go` lines 1234–1243). -/
def parseConditionPriceComponents (priceComp : JNode) : ConditionPriceComponents :=
  { Symbol := (priceComp.get "symbol").str,
    InstrumentType := InstrumentTypeFromString (priceComp.get "instrument-type").str,
    Quantity := (priceComp.get "quantity").str,
    QuantityDirection := (priceComp.get "quantity-direction").str }

/-- Body of the conditions loop (`tasty.go` lines 1226–1258). -/
def parseConditionStatus (condition : JNode) : ConditionStatus :=
  { ID := (condition.get "id").str,
    Action := ActionConditionFromString (condition.get "action").str,
    TriggeredAt := (condition.get "triggered-at").time,
    TriggeredValue := (condition.get "triggered-value").float,
    Symbol := (condition.get "symbol").str,
    InstrumentType := InstrumentTypeFromString (condition.get "instrument-type").str,
    Indicator := IndicatorFromString (condition.get "indicator").str,
    Comparator := ComparatorFromString (condition.get "comparator").str,
    Threshold := (condition.get "threshold").float,
    IsThresholdBasedOnNotional := (condition.get "is-threshold-based-on-notional").bool,
    PriceComponents := ((condition.get "price-components").array).map parseConditionPriceComponents }

/-- Body of the order-rule loop (`tasty.go` lines 1223–1267). -/
def parseRuleStatus (rule : JNode) : RuleStatus :=
  { RouteAfter := (rule.get "route-after").time,
    RoutedAt := (rule.get "routed-at").time,
    CancelAt := (rule.get "cancel-at").time,
    CancelledAt := (rule.get "cancelled-at").time,
    Conditions := ((rule.get "conditions").array).map parseConditionStatus }

/-- `parseOrderStatus` (`tasty.go` lines 1185–1310). -/
def parseOrderStatus (order : JNode) : OrderStatus :=
  { Size := (order.get "size").str,
    TimeInForce := (order.get "time-in-force").str,
    TerminalAt := (order.get "terminal-at").time,
    Editable := (order.get "editable").bool,
    ContingentStatus := (order.get "contingent-status").str,
    Legs := ((order.get "legs").array).map parseLegStatus,
    GTCDate := (order.get "gtc-date").time,
    UpdatedAt := (order.get "updated-at").str,
    InFlightAt := (order.get "in-flight-at").time,
    ReplacesOrderID := (order.get "replaces-order-id").str,
    UnderlyingSymbol := (order.get "underlying-symbol").str,
    Edited := (order.get "edited").bool,
    Price := (order.get "price").float,
    CancelUsername := (order.get "cancel-username").str,
    AccountNumber := (order.get "account-number").str,
    ConfirmationStatus := (order.get "confirmation-status").str,
    CancelUserID := (order.get "cancel-user-id").str,
    Cancellable := (order.get "cancellable").bool,
    ValueEffect := EffectFromString (order.get "value-effect").str,
    StopTrigger := (order.get "stop-trigger").str,
    CancelledAt := (order.get "cancelled-at").time,
    UnderlyingInstrumentType := InstrumentTypeFromString (order.get "underlying-instrument-type").str,
    Value := (order.get "value").float,
    RejectReason := (order.get "reject-reason").str,
    Status := (order.get "status").str,
    LiveAt := (order.get "live-at").time,
    PreflightID := (order.get "preflight-id").str,
    PriceEffect := EffectFromString (order.get "price-effect").str,
    Username := (order.get "username").str,
    ReplacingOrderID := (order.get "replacing-order-id").str,
    ComplexOrderID := (order.get "complex-order-id").str,
    OrderType := OrderTypeFromString (order.get "order-type").str,
    ID := (order.get "id").str,
    OrderRule := ((order.get "order-rule").array).map parseRuleStatus,
    UserId := (order.get "user-id").str,
    ComplexOrderTag := (order.get "complex-order-tag").str,
    ReceivedAt := (order.get "received-at").time }

/-- `(*Session).DeleteOrder` (`tasty.go` lines 1166–1183).  `exchResp` feeds
the `restyClient` refresh path, `resp` models the DELETE response.  Unlike
every other operation, the body is decoded with no check of
`resp.StatusCode()`. -/
def DeleteOrder (session : Session) (_accountNumber _orderID : String)
    (now now2 : GoTime) (exchResp : Except String HttpResponse)
    (resp : Except String HttpResponse) : OpResult OrderStatus :=
  match restyClient session now now2 exchResp with
  | ⟨.ok _, _, _⟩ =>
    match resp with
    | .error e => .err (.transport e)
    | .ok r =>
      let content := r.Doc
      let order := (content.get "data").get "order"
      .ok (parseOrderStatus order)
  | ⟨.err e, _, _⟩ => .err e
  | ⟨.panicNilLock, _, _⟩ => .panicked
  | ⟨.panicNilValue, _, _⟩ => .panicked

/-! ## Two callers sharing one Session (`restyClient` under concurrency)

An interleaving model of two goroutines running the body of `restyClient`
(`tasty.go` lines 591–633) against one shared `Session`.  A thread takes
three observable steps:

  1. evaluate the expiry check of line 591 against the shared `ExpiresOn`;
  2. `RefreshLocker.Lock()` followed by the whole critical section of lines
     592–629 (the lock makes those lines mutually exclusive, so they are one
     atomic step whose deferred `Unlock` runs on every exit) — note the code
     re-reads nothing: there is no second expiry check inside the lock;
  3. read the shared token for the Authorization header (line 631).

A schedule is a list of thread identifiers; each entry lets that thread take
its next enabled step (a thread waiting on a held lock makes no progress). -/

structure SharedSession where
  ExpiresOn : GoTime
  RememberMeExpiresOn : GoTime
  Token : Option String
  RememberToken : Option String
  lockHeld : Bool
  exchangeCount : Nat
deriving DecidableEq, Repr

/-- One caller's fixed inputs: its two `time.Now()` readings and the response
its own renewal POST would receive. -/
structure CallerCtx where
  now : GoTime
  now2 : GoTime
  resp : Except String HttpResponse

inductive CallerPhase where
  | ready
  | waitLock
  | unlocked
  | finished (res : ClientResult)
deriving DecidableEq, Repr

/-- One step of one caller against the shared session. -/
def callerStep (ctx : CallerCtx) (sh : SharedSession) :
    CallerPhase → SharedSession × CallerPhase
  | .ready =>
    if sh.ExpiresOn.before (ctx.now.addSec (-300)) then (sh, .waitLock)
    else (sh, .unlocked)
  | .waitLock =>
    if sh.lockHeld then (sh, .waitLock)
    else
      match sh.RememberToken with
      | none => (sh, .finished .panicNilValue)
      | some rememberMe =>
        if rememberMe = "" then (sh, .finished (.err .sessionExpired))
        else if sh.RememberMeExpiresOn.before ctx.now2 then
          (sh, .finished (.err .rememberTokenExpired))
        else
          let sh := { sh with exchangeCount := sh.exchangeCount + 1 }
          match ctx.resp with
          | .error e => (sh, .finished (.err (.transport e)))
          | .ok r =>
            if 400 ≤ r.StatusCode then
              (sh, .finished (.err (.httpStatus r.Status r.RawBody)))
            else
              let tok := ((r.Doc.get "data").get "session-token").str
              ({ sh with
                  ExpiresOn := r.ReceivedAt.addSec 86400,
                  Token := some tok,
                  RememberMeExpiresOn := r.ReceivedAt.addSec 2419200,
                  RememberToken := some tok }, .unlocked)
  | .unlocked =>
    match sh.Token with
    | none => (sh, .finished .panicNilValue)
    | some tk => (sh, .finished (.ok tk))
  | .finished res => (sh, .finished res)

/-- Global state of the two callers `a` and `b` and the shared session. -/
structure RefreshRace where
  shared : SharedSession
  a : CallerPhase
  b : CallerPhase
deriving DecidableEq, Repr

/-- Let caller `b` (when `tid`) or `a` take one step. -/
def raceStep (ctxA ctxB : CallerCtx) (st : RefreshRace) (tid : Bool) : RefreshRace :=
  if tid then
    let (sh, ph) := callerStep ctxB st.shared st.b
    { st with shared := sh, b := ph }
  else
    let (sh, ph) := callerStep ctxA st.shared st.a
    { st with shared := sh, a := ph }

/-- Run a schedule of caller steps. -/
def raceRun (ctxA ctxB : CallerCtx) (st : RefreshRace) (sched : List Bool) : RefreshRace :=
  sched.foldl (raceStep ctxA ctxB) st

/-! ## Concrete fixtures used by the claim theorems and witnesses -/

/-- A session whose token expires exactly now (at second 1000), with a valid
remember-me token and an initialized lock. -/
def sessAtExpiry : Session :=
  { AuthenticatedOn := ⟨0, 0⟩, ExpiresOn := ⟨1000, 0⟩,
    RememberMeExpiresOn := ⟨100000000, 0⟩,
    Name := "n", Nickname := "nn", Email := "e", ExternalID := "x", Username := "user",
    ApiURL := apiURL, AccountStreamerURL := accountStreamerURL,
    Token := some "S1", RememberToken := some "R1",
    Debug := false, RefreshLocker := some () }

/-- An expired session holding an empty remember-me token. -/
def sessNoRemember : Session :=
  { sessAtExpiry with ExpiresOn := ⟨0, 0⟩, RememberToken := some "" }

/-- An expired session whose remember-me token is itself past expiry. -/
def sessStaleRemember : Session :=
  { sessAtExpiry with ExpiresOn := ⟨0, 0⟩, RememberMeExpiresOn := ⟨500, 0⟩ }

/-- An expired session about to refresh through a renewal exchange. -/
def sessBeforeRefresh : Session := { sessAtExpiry with ExpiresOn := ⟨0, 0⟩ }

/-- A renewal-exchange response body in which the server issued session token
`"S2"` and fresh remember token `"R2"`. -/
def exchangeDoc : JNode :=
  jobj [("data", jobj [("session-token", jstr "S2"), ("remember-token", jstr "R2")])]

def exchangeResp : HttpResponse :=
  { StatusCode := 201, Status := "201 Created", ReceivedAt := ⟨5000, 0⟩,
    RawBody := "", Doc := exchangeDoc }

/-- A session whose token is still fresh at second 0. -/
def sessFresh : Session := { sessAtExpiry with ExpiresOn := ⟨10000, 0⟩, Token := some "TOK" }

/-- A cancel response whose status is 422 but whose body still carries an
order document. -/
def cancelDoc : JNode :=
  jobj [("data", jobj [("order", jobj [("id", jstr "ORD1"), ("status", jstr "Rejected")])])]

def cancelResp422 : HttpResponse :=
  { StatusCode := 422, Status := "422 Unprocessable Entity", ReceivedAt := ⟨0, 0⟩,
    RawBody := "order validation failed", Doc := cancelDoc }

/-- Caller A of the refresh race: its renewal exchange would answer `"SA"`. -/
def raceCtxA : CallerCtx :=
  ⟨⟨1000, 0⟩, ⟨1000, 0⟩,
   .ok { StatusCode := 201, Status := "201 Created", ReceivedAt := ⟨2000, 0⟩,
         RawBody := "", Doc := jobj [("data", jobj [("session-token", jstr "SA")])] }⟩

/-- Caller B of the refresh race: its renewal exchange would answer `"SB"`. -/
def raceCtxB : CallerCtx :=
  ⟨⟨1000, 0⟩, ⟨1000, 0⟩,
   .ok { StatusCode := 201, Status := "201 Created", ReceivedAt := ⟨2100, 0⟩,
         RawBody := "", Doc := jobj [("data", jobj [("session-token", jstr "SB")])] }⟩

/-- Both callers start against one shared session whose token expired at
second 0 and whose remember token `"R0"` is valid. -/
def raceInit : RefreshRace :=
  ⟨⟨⟨0, 0⟩, ⟨50000000, 0⟩, some "S0", some "R0", false, 0⟩, .ready, .ready⟩

/-- The schedule in which both callers pass the expiry check of line 591
before either acquires the lock, then caller A refreshes and finishes, then
caller B refreshes and finishes. -/
def raceSched : List Bool := [false, true, false, false, true, true]

/-- A session with sub-second timestamps and URLs that are not the endpoint
constants. -/
def roundtripBad : Session :=
  { AuthenticatedOn := ⟨100, 7⟩, ExpiresOn := ⟨200, 0⟩, RememberMeExpiresOn := ⟨300, 0⟩,
    Name := "n", Nickname := "nick", Email := "e", ExternalID := "ext", Username := "u",
    ApiURL := "https://example.com", AccountStreamerURL := "wss://example.com",
    Token := some "T", RememberToken := some "R",
    Debug := false, RefreshLocker := some () }

/-- A whole-second production session carrying a remember token. -/
def roundtripGoodRemember : Session :=
  { roundtripBad with
    AuthenticatedOn := ⟨100, 0⟩,
    ApiURL := apiURL, AccountStreamerURL := accountStreamerURL }

/-- A whole-second sandbox session without a remember token (the empty token
a restored no-remember-me session stores). -/
def roundtripGoodNoRemember : Session :=
  { roundtripGoodRemember with
    RememberToken := some "",
    ApiURL := sandboxApiURL, AccountStreamerURL := sandboxAccountStreamerURL,
    Debug := true }

/-- The spec's example filter: only `perPage = 50` set, everything else the
Go zero value. -/
def filterPerPage50 : TransactionFilterOpts :=
  { StartDate := GoTime.zeroVal, EndDate := GoTime.zeroVal,
    Symbol := "", InstrumentType := .UndefinedInstrument,
    UnderlyingSymbol := "", FuturesSymbol := "", Action := .UndefinedAction,
    PartitionKey := "", TransactionTypes := [], TransactionSubTypes := [],
    Status := [], Sort' := none, PerPage := 50, PageOffset := 0 }

/-- An order document with legs `[A, B, C]`, two fills on leg B, and one
routing rule with one condition carrying two price components. -/
def orderDocABC : JNode :=
  jobj [
    ("id", jstr "ORD42"),
    ("legs", jarr [
      jobj [("symbol", jstr "A"), ("fills", jarr [jobj [("fill-id", jstr "fA1")]])],
      jobj [("symbol", jstr "B"),
            ("fills", jarr [jobj [("fill-id", jstr "fB1")], jobj [("fill-id", jstr "fB2")]])],
      jobj [("symbol", jstr "C"), ("fills", jarr [])]]),
    ("order-rule", jarr [
      jobj [("conditions", jarr [
        jobj [("id", jstr "cond1"),
              ("price-components", jarr [
                jobj [("symbol", jstr "P1")], jobj [("symbol", jstr "P2")]])]])]])]

/-- A persisted record as written by `Marshal`. -/
def persistedRecord : SessionRecord :=
  { AuthenticatedOn := 100, ApiURL := "https://api.tastyworks.com",
    SessionToken := "T", ExpiresOn := 200, RememberToken := "R",
    RememberExpiresOn := 300, Name := "n", Nickname := "k", Email := "e",
    ExternalID := "x", Username := "u", Debug := false }

/-- A successful login response for `NewSession`. -/
def loginResp : HttpResponse :=
  { StatusCode := 201, Status := "201 Created", ReceivedAt := ⟨50, 0⟩,
    RawBody := "",
    Doc := jobj [("data", jobj [("session-token", jstr "T0"),
                                ("user", jobj [("name", jstr "N")])])] }

/-- The session `NewSession "u" "p" [] (.ok loginResp)` constructs. -/
def loginSession : Session :=
  { AccountStreamerURL := accountStreamerURL, ApiURL := apiURL,
    AuthenticatedOn := ⟨50, 0⟩, ExpiresOn := ⟨86450, 0⟩,
    Username := "u", Token := some "T0",
    RememberMeExpiresOn := GoTime.zeroVal, RememberToken := none,
    Name := "N", Nickname := "", Email := "", ExternalID := "",
    Debug := false, RefreshLocker := some () }

/-! ## Claim theorems -/

/-- C1: the pre-request check of `restyClient` is claimed to enter the
refresh path exactly when `now ≥ ExpiresOn − 5min`.  At `now = ExpiresOn`
(second 1000) that condition holds — `now` is not before
`ExpiresOn − 5min` — yet the code takes no refresh action: line 591 tests
`ExpiresOn.Before(now.Add(-5min))`, which only fires once `now` is five
minutes *past* expiry, so the call proceeds with the stored (expired) token
`"S1"` and performs no exchange. -/
theorem restyClient_no_refresh_at_claimed_boundary :
    ¬ (GoTime.mk 1000 0).before (sessAtExpiry.ExpiresOn.addSec (-300))
    ∧ restyClient sessAtExpiry ⟨1000, 0⟩ ⟨1000, 0⟩ (.error "no request")
        = ⟨.ok "S1", sessAtExpiry, false⟩ := by
  exact ⟨by decide, by decide⟩

/-- C2: two concurrent callers on one expired session with a valid renewal
token are claimed to produce exactly one renewal exchange and observe the
same post-refresh token.  Under the schedule in which both evaluate the
line-591 expiry check before either acquires `RefreshLocker` (the code never
re-checks expiry inside the lock), each caller performs its own exchange:
the run ends with two exchanges and the callers observing the two different
tokens their respective exchanges returned. -/
theorem concurrent_refresh_double_exchange :
    (raceRun raceCtxA raceCtxB raceInit raceSched).shared.exchangeCount = 2
    ∧ (raceRun raceCtxA raceCtxB raceInit raceSched).a = .finished (.ok "SA")
    ∧ (raceRun raceCtxA raceCtxB raceInit raceSched).b = .finished (.ok "SB") := by
  exact ⟨by decide, by decide, by decide⟩

/-- C3: a Session holding no renewal token is claimed to fail with
`ErrSessionExpired` whenever the refresh path is entered.  This fails on the
canonical no-renewal-token session: `NewSession` without `RememberMe` never
calls `Store` on the `RememberToken` cell (lines 432–435), so when such a
session enters the refresh path, line 598's
`session.RememberToken.Load().(string)` is a type assertion on a nil
interface and panics — no `ErrSessionExpired` is returned.  The error
branches exist only for stored cells: a stored-but-empty remember token (as
every restored session has) does return `ErrSessionExpired`, and a stored
stale remember token returns `ErrRememberTokenExpired`, both with the
session unchanged and no exchange issued, as the last two conjuncts
record. -/
theorem no_renewal_token_session_panics_not_errors :
    NewSession "u" "p" [] (.ok loginResp) = .ok loginSession
    ∧ loginSession.RememberToken = none
    ∧ loginSession.ExpiresOn.before ((GoTime.mk 100000 0).addSec (-300))
    ∧ restyClient loginSession ⟨100000, 0⟩ ⟨100000, 0⟩ (.error "no request")
        = ⟨.panicNilValue, loginSession, false⟩
    ∧ (restyClient loginSession ⟨100000, 0⟩ ⟨100000, 0⟩ (.error "no request")).result
        ≠ .err .sessionExpired
    ∧ restyClient sessNoRemember ⟨1000, 0⟩ ⟨1000, 0⟩ (.error "no request")
        = ⟨.err .sessionExpired, sessNoRemember, false⟩
    ∧ restyClient sessStaleRemember ⟨1000, 0⟩ ⟨1000, 0⟩ (.error "no request")
        = ⟨.err .rememberTokenExpired, sessStaleRemember, false⟩ := by
  exact ⟨rfl, rfl, by decide, by decide, by decide, by decide, by decide⟩

/-- C4: a successful renewal exchange is claimed to replace the remember
token with the fresh remember token of the response.  The code replaces
session token and both expiries as claimed, but lines 625 and 628 read the
same `data.session-token` path for both cells: after the exchange the
remember-token cell holds the response's session token `"S2"`, not its
remember token `"R2"`. -/
theorem refresh_stores_session_token_as_remember_token :
    (restyClient sessBeforeRefresh ⟨1000, 0⟩ ⟨1000, 0⟩ (.ok exchangeResp)).exchanged = true
    ∧ (restyClient sessBeforeRefresh ⟨1000, 0⟩ ⟨1000, 0⟩ (.ok exchangeResp)).result = .ok "S2"
    ∧ (restyClient sessBeforeRefresh ⟨1000, 0⟩ ⟨1000, 0⟩ (.ok exchangeResp)).session.ExpiresOn
        = exchangeResp.ReceivedAt.addSec 86400
    ∧ (restyClient sessBeforeRefresh ⟨1000, 0⟩ ⟨1000, 0⟩ (.ok exchangeResp)).session.RememberMeExpiresOn
        = exchangeResp.ReceivedAt.addSec 2419200
    ∧ (restyClient sessBeforeRefresh ⟨1000, 0⟩ ⟨1000, 0⟩ (.ok exchangeResp)).session.Token
        = some ((exchangeDoc.get "data").get "session-token").str
    ∧ (restyClient sessBeforeRefresh ⟨1000, 0⟩ ⟨1000, 0⟩ (.ok exchangeResp)).session.RememberToken
        = some ((exchangeDoc.get "data").get "session-token").str
    ∧ (restyClient sessBeforeRefresh ⟨1000, 0⟩ ⟨1000, 0⟩ (.ok exchangeResp)).session.RememberToken
        ≠ some ((exchangeDoc.get "data").get "remember-token").str := by
  refine ⟨rfl, rfl, rfl, rfl, rfl, rfl, by decide⟩

/-- C5: every operation is claimed to fail on an HTTP status ≥ 400.
`DeleteOrder` (`tasty.go` lines 1166–1183) never inspects
`resp.StatusCode()`: on a 422 cancel response it still decodes and returns
the order in the body instead of an error. -/
theorem deleteOrder_ignores_http_status :
    cancelResp422.StatusCode = 422
    ∧ DeleteOrder sessFresh "ACC123" "ORD1" ⟨0, 0⟩ ⟨0, 0⟩ (.error "no refresh")
        (.ok cancelResp422)
      = .ok (parseOrderStatus ((cancelDoc.get "data").get "order"))
    ∧ (parseOrderStatus ((cancelDoc.get "data").get "order")).ID = "ORD1" := by
  exact ⟨rfl, rfl, rfl⟩

/-- C6: a caller supplying a filter specification is claimed to have its
non-default fields serialized as query parameters.  All three listing
operations gate their filter block on `len(filterOpts) > 1`, so the normal
call with exactly one filter specification produces no query parameters at
all — the filter is silently ignored. -/
theorem single_filter_opts_ignored :
    (∀ f : TransactionFilterOpts, transactionsQueryParams [f] = .params [])
    ∧ (∀ f : PositionFilterOpts, positionsQueryParams [f] = [])
    ∧ (∀ f : OrdersFilterOpts, ordersQueryParams [f] = .params []) :=
  ⟨fun _ => rfl, fun _ => rfl, fun _ => rfl⟩

/-- Witness for C6 at the spec's example filter (only `perPage = 50` set):
the claim expects `per-page=50` and `sort=<default>`, the code emits
nothing. -/
theorem single_filter_opts_ignored_witness :
    transactionsQueryParams [filterPerPage50] = .params [] :=
  single_filter_opts_ignored.1 filterPerPage50

/-- C7 counterexample: the persisted round trip does not reproduce every
non-lock field of every session.  `Marshal` stores timestamps as whole epoch
seconds (`Unix()`), so the 7-nanosecond part of `roundtripBad`'s
`AuthenticatedOn` is dropped, and `NewSessionFromBytes` maps any stored URL
other than the sandbox constant onto the production constant, so the URL
`"https://example.com"` does not come back either. -/
theorem marshal_roundtrip_counterexample :
    (sessionRoundTrip roundtripBad).map Session.AuthenticatedOn
      ≠ some roundtripBad.AuthenticatedOn
    ∧ (sessionRoundTrip roundtripBad).map Session.ApiURL ≠ some roundtripBad.ApiURL := by
  exact ⟨by decide, by decide⟩

/-- C7 as amended: for a session whose token cells are stored, whose three
timestamps are whole seconds, and whose URL pair is one of the two endpoint
constant pairs (as holds for every session the library itself builds),
`NewSessionFromBytes ∘ Marshal` reproduces every field except
`RefreshLocker`, which comes back nil. -/
theorem marshal_roundtrip_amended (c : Session) (t r : String)
    (htok : c.Token = some t) (hrem : c.RememberToken = some r)
    (h1 : c.AuthenticatedOn.nsec = 0) (h2 : c.ExpiresOn.nsec = 0)
    (h3 : c.RememberMeExpiresOn.nsec = 0)
    (hurl : (c.ApiURL = apiURL ∧ c.AccountStreamerURL = accountStreamerURL)
          ∨ (c.ApiURL = sandboxApiURL ∧ c.AccountStreamerURL = sandboxAccountStreamerURL)) :
    sessionRoundTrip c = some { c with RefreshLocker := none } := by
  obtain ⟨⟨asec, ansec⟩, ⟨esec, ensec⟩, ⟨rsec, rnsec⟩, nm, nk, em, ex, us, au, su, tok, rtk,
    dbg, lk⟩ := c
  simp only at h1 h2 h3 htok hrem
  subst h1 h2 h3 htok hrem
  rcases hurl with ⟨hu, hs⟩ | ⟨hu, hs⟩ <;>
    simp_all [sessionRoundTrip, Session.Marshal, NewSessionFromBytes,
      GoTime.unix, GoTime.unixSec, apiURL, sandboxApiURL,
      accountStreamerURL, sandboxAccountStreamerURL]

/-- Witness for C7's amended statement: a production session with a remember
token and a sandbox session storing the empty remember token both round-trip
onto themselves with a nil lock. -/
theorem marshal_roundtrip_amended_witness :
    sessionRoundTrip roundtripGoodRemember
      = some { roundtripGoodRemember with RefreshLocker := none }
    ∧ sessionRoundTrip roundtripGoodNoRemember
      = some { roundtripGoodNoRemember with RefreshLocker := none } :=
  ⟨marshal_roundtrip_amended roundtripGoodRemember "T" "R" rfl rfl rfl rfl rfl
      (Or.inl ⟨rfl, rfl⟩),
   marshal_roundtrip_amended roundtripGoodNoRemember "T" "" rfl rfl rfl rfl rfl
      (Or.inr ⟨rfl, rfl⟩)⟩

/-- C8: for each of the seven string-decoded enum types, every variant's
string round-trips through `FromString` (`StringOf(FromString(StringOf V)) =
StringOf V`), any string outside the defined vocabulary decodes to the
undefined sentinel without error, and the sentinel stringifies to the
literal `"UNK"`. -/
theorem enum_roundtrip_and_sentinel :
    ((∀ v : OrderTypeChoice, (OrderTypeFromString v.str).str = v.str)
      ∧ (∀ s : String, s ∉ orderTypeStrings → OrderTypeFromString s = .UndefinedOrderType)
      ∧ OrderTypeChoice.UndefinedOrderType.str = "UNK")
    ∧ ((∀ v : InstrumentTypeChoice, (InstrumentTypeFromString v.str).str = v.str)
      ∧ (∀ s : String, s ∉ instrumentTypeStrings →
          InstrumentTypeFromString s = .UndefinedInstrument)
      ∧ InstrumentTypeChoice.UndefinedInstrument.str = "UNK")
    ∧ ((∀ v : ActionType, (ActionTypeFromString v.str).str = v.str)
      ∧ (∀ s : String, s ∉ actionTypeStrings → ActionTypeFromString s = .UndefinedAction)
      ∧ ActionType.UndefinedAction.str = "UNK")
    ∧ ((∀ v : Effect, (EffectFromString v.str).str = v.str)
      ∧ (∀ s : String, s ∉ effectStrings → EffectFromString s = .UndefinedEffect)
      ∧ Effect.UndefinedEffect.str = "UNK")
    ∧ ((∀ v : ActionCondition, (ActionConditionFromString v.str).str = v.str)
      ∧ (∀ s : String, s ∉ actionConditionStrings →
          ActionConditionFromString s = .UndefinedActionCondition)
      ∧ ActionCondition.UndefinedActionCondition.str = "UNK")
    ∧ ((∀ v : IndicatorType, (IndicatorFromString v.str).str = v.str)
      ∧ (∀ s : String, s ∉ indicatorStrings → IndicatorFromString s = .UndefinedIndicatorType)
      ∧ IndicatorType.UndefinedIndicatorType.str = "UNK")
    ∧ ((∀ v : ComparatorType, (ComparatorFromString v.str).str = v.str)
      ∧ (∀ s : String, s ∉ comparatorStrings → ComparatorFromString s = .UndefinedComparator)
      ∧ ComparatorType.UndefinedComparator.str = "UNK") := by
  refine ⟨⟨?_, ?_, rfl⟩, ⟨?_, ?_, rfl⟩, ⟨?_, ?_, rfl⟩, ⟨?_, ?_, rfl⟩,
    ⟨?_, ?_, rfl⟩, ⟨?_, ?_, rfl⟩, ⟨?_, ?_, rfl⟩⟩
  · intro v; cases v <;> rfl
  · intro s hs
    simp only [orderTypeStrings, List.mem_cons, List.not_mem_nil, or_false, not_or] at hs
    obtain ⟨g1, g2, g3, g4, g5, g6⟩ := hs
    simp [OrderTypeFromString, g1, g2, g3, g4, g5, g6]
  · intro v; cases v <;> rfl
  · intro s hs
    simp only [instrumentTypeStrings, List.mem_cons, List.not_mem_nil, or_false, not_or] at hs
    obtain ⟨g1, g2, g3, g4, g5, g6⟩ := hs
    simp [InstrumentTypeFromString, g1, g2, g3, g4, g5, g6]
  · intro v; cases v <;> rfl
  · intro s hs
    simp only [actionTypeStrings, List.mem_cons, List.not_mem_nil, or_false, not_or] at hs
    obtain ⟨g1, g2, g3, g4, g5, g6⟩ := hs
    simp [ActionTypeFromString, g1, g2, g3, g4, g5, g6]
  · intro v; cases v <;> rfl
  · intro s hs
    simp only [effectStrings, List.mem_cons, List.not_mem_nil, or_false, not_or] at hs
    obtain ⟨g1, g2⟩ := hs
    simp [EffectFromString, g1, g2]
  · intro v; cases v <;> rfl
  · intro s hs
    simp only [actionConditionStrings, List.mem_cons, List.not_mem_nil, or_false, not_or] at hs
    obtain ⟨g1, g2⟩ := hs
    simp [ActionConditionFromString, g1, g2]
  · intro v; cases v <;> rfl
  · intro s hs
    simp only [indicatorStrings, List.mem_cons, List.not_mem_nil, or_false, not_or] at hs
    obtain ⟨g1, g2⟩ := hs
    simp [IndicatorFromString, g1, g2]
  · intro v; cases v <;> rfl
  · intro s hs
    simp only [comparatorStrings, List.mem_cons, List.not_mem_nil, or_false, not_or] at hs
    obtain ⟨g1, g2⟩ := hs
    simp [ComparatorFromString, g1, g2]

/-- Witness for C8: the out-of-vocabulary branch of each decoder at the
concrete input `"garbage"`, and one concrete round trip. -/
theorem enum_roundtrip_and_sentinel_witness :
    OrderTypeFromString "garbage" = .UndefinedOrderType
    ∧ InstrumentTypeFromString "garbage" = .UndefinedInstrument
    ∧ ActionTypeFromString "garbage" = .UndefinedAction
    ∧ EffectFromString "garbage" = .UndefinedEffect
    ∧ ActionConditionFromString "garbage" = .UndefinedActionCondition
    ∧ IndicatorFromString "garbage" = .UndefinedIndicatorType
    ∧ ComparatorFromString "garbage" = .UndefinedComparator
    ∧ (OrderTypeFromString OrderTypeChoice.Limit.str).str = OrderTypeChoice.Limit.str :=
  ⟨enum_roundtrip_and_sentinel.1.2.1 "garbage" (by decide),
   enum_roundtrip_and_sentinel.2.1.2.1 "garbage" (by decide),
   enum_roundtrip_and_sentinel.2.2.1.2.1 "garbage" (by decide),
   enum_roundtrip_and_sentinel.2.2.2.1.2.1 "garbage" (by decide),
   enum_roundtrip_and_sentinel.2.2.2.2.1.2.1 "garbage" (by decide),
   enum_roundtrip_and_sentinel.2.2.2.2.2.1.2.1 "garbage" (by decide),
   enum_roundtrip_and_sentinel.2.2.2.2.2.2.2.1 "garbage" (by decide),
   enum_roundtrip_and_sentinel.1.1 OrderTypeChoice.Limit⟩

/-- C9: at every nesting level of `parseOrderStatus` the decoded sequence
mirrors the source array index-for-index — element `i` of the output is the
decode of element `i` of the input and lengths agree — for legs, fills,
rules, conditions and price components. -/
theorem parseOrderStatus_preserves_order (order leg rule condition : JNode) :
    (∀ i : Nat, (parseOrderStatus order).Legs[i]?
      = ((order.get "legs").array)[i]?.map parseLegStatus)
    ∧ (parseOrderStatus order).Legs.length = ((order.get "legs").array).length
    ∧ (∀ i : Nat, (parseLegStatus leg).Fills[i]?
      = ((leg.get "fills").array)[i]?.map parseFillStatus)
    ∧ (parseLegStatus leg).Fills.length = ((leg.get "fills").array).length
    ∧ (∀ i : Nat, (parseOrderStatus order).OrderRule[i]?
      = ((order.get "order-rule").array)[i]?.map parseRuleStatus)
    ∧ (∀ i : Nat, (parseRuleStatus rule).Conditions[i]?
      = ((rule.get "conditions").array)[i]?.map parseConditionStatus)
    ∧ (∀ i : Nat, (parseConditionStatus condition).PriceComponents[i]?
      = ((condition.get "price-components").array)[i]?.map parseConditionPriceComponents) := by
  refine ⟨fun i => ?_, ?_, fun i => ?_, ?_, fun i => ?_, fun i => ?_, fun i => ?_⟩ <;>
    simp [parseOrderStatus, parseLegStatus, parseRuleStatus, parseConditionStatus,
      List.getElem?_map, List.length_map]

/-- Witness for C9 at a concrete three-leg document: the middle output leg
is the decode of the middle source leg. -/
theorem parseOrderStatus_preserves_order_witness :
    (parseOrderStatus orderDocABC).Legs[1]?
      = ((orderDocABC.get "legs").array)[1]?.map parseLegStatus
    ∧ (parseOrderStatus orderDocABC).Legs[1]?.map LegStatus.Symbol = some "B" :=
  ⟨(parseOrderStatus_preserves_order orderDocABC orderDocABC orderDocABC orderDocABC).1 1,
   by decide⟩

/-- C10: every session rebuilt by `NewSessionFromBytes` carries a nil
`RefreshLocker`, so the moment such a session's pre-request check enters the
refresh path it panics on `RefreshLocker.Lock()` — no refresh and no expiry
error — while sessions built by `NewSession` carry an initialized lock. -/
theorem restored_session_nil_locker_panics :
    (∀ data : SessionRecord, (NewSessionFromBytes data).RefreshLocker = none)
    ∧ (∀ (s : Session) (now now2 : GoTime) (resp : Except String HttpResponse),
        s.RefreshLocker = none → s.ExpiresOn.before (now.addSec (-300)) →
        restyClient s now now2 resp = ⟨.panicNilLock, s, false⟩)
    ∧ (∀ (login password : String) (opts : List SessionOpts)
        (resp : Except String HttpResponse) (s : Session),
        NewSession login password opts resp = .ok s → s.RefreshLocker = some ()) := by
  refine ⟨fun data => rfl, ?_, ?_⟩
  · intro s now now2 resp hlock hexp
    simp [restyClient, hexp, hlock]
  · intro login password opts resp s h
    cases resp with
    | error e => simp [NewSession] at h
    | ok r =>
      by_cases hstatus : 400 ≤ r.StatusCode
      · simp [NewSession, hstatus] at h
      · simp [NewSession, hstatus] at h
        subst h
        rfl

/-- Witness for C10: the session restored from `persistedRecord` has a nil
lock and panics when its expired token sends a call (at second 10000) into
the refresh path, while the session `NewSession` builds from `loginResp`
carries an initialized lock. -/
theorem restored_session_nil_locker_panics_witness :
    (NewSessionFromBytes persistedRecord).RefreshLocker = none
    ∧ restyClient (NewSessionFromBytes persistedRecord) ⟨10000, 0⟩ ⟨10000, 0⟩
        (.error "no request")
      = ⟨.panicNilLock, NewSessionFromBytes persistedRecord, false⟩
    ∧ loginSession.RefreshLocker = some () :=
  ⟨restored_session_nil_locker_panics.1 persistedRecord,
   restored_session_nil_locker_panics.2.1 (NewSessionFromBytes persistedRecord)
      ⟨10000, 0⟩ ⟨10000, 0⟩ (.error "no request") rfl (by decide),
   restored_session_nil_locker_panics.2.2 "u" "p" [] (.ok loginResp) loginSession rfl⟩
